import Mathlib

set_option linter.unusedVariables false

/-!
Shallow embedding of src/src/ruby/ext/grpc/rb_channel_credentials.c, the Ruby
binding for gRPC TLS channel credentials.  Ruby VALUEs are modelled by an
inductive type, native credential handles by a tagged id type, the provider
(grpc_ssl_credentials_create / grpc_composite_channel_credentials_create) by
explicit oracles, and the stateful pieces (the wrapper struct, the hidden
instance variables, the process-wide root-certificate buffer) by explicit
state passing.
-/

namespace GrpcRb

/-- Shallow model of a Ruby VALUE as it is used by this file: nil, booleans,
integers, strings, Proc objects, Symbols, arrays, string-keyed hashes, and
opaque objects (such as call-credential wrappers). -/
inductive RValue where
  | nil
  | boolval (b : Bool)
  | intval (n : Int)
  | str (s : String)
  | rproc (id : Nat)
  | sym (s : String)
  | ary (elems : List RValue)
  | hash (entries : List (String × RValue))
  | obj (id : Nat)

/-- Ruby truthiness: nil and false are falsy, everything else is truthy. -/
def rubyTruthy : RValue → Bool
  | RValue.nil => false
  | RValue.boolval b => b
  | _ => true

/-- Tests a VALUE against Qnil. -/
def isNil : RValue → Bool
  | RValue.nil => true
  | _ => false

/-- Models the test rb_class_of(v) == rb_cProc. -/
def classOfIsProc : RValue → Bool
  | RValue.rproc _ => true
  | _ => false

/-- Models the test rb_class_of(v) == rb_cSymbol. -/
def classOfIsSymbol : RValue → Bool
  | RValue.sym _ => true
  | _ => false

/-- Association-list lookup used to model rb_hash_aref on a string-keyed
Ruby hash. -/
def lookupEntry : List (String × RValue) → String → RValue
  | [], _ => RValue.nil
  | (k, v) :: rest, key => if k == key then v else lookupEntry rest key

/-- Models rb_hash_aref(h, rb_str_new2(key)): the value stored under the
string key, or nil when absent (or when h is not a hash). -/
def rb_hash_aref (h : RValue) (key : String) : RValue :=
  match h with
  | RValue.hash entries => lookupEntry entries key
  | _ => RValue.nil

/-- A C string pointer as produced by this file: NULL, a pointer to the bytes
of an actual Ruby string, or the undefined/garbage pointer that results from
applying RSTRING_PTR to a VALUE that is not a string (such as Qnil). -/
inductive CStr where
  | null
  | str (s : String)
  | undef
deriving DecidableEq, Repr

/-- Models the RSTRING_PTR macro: the byte pointer of a Ruby string; applied
to any non-string VALUE the macro dereferences a bogus pointer, which we model
as the undefined value. -/
def RSTRING_PTR : RValue → CStr
  | RValue.str s => CStr.str s
  | _ => CStr.undef

/-- A native grpc_channel_credentials handle.  Handles that already existed
before a given engine invocation (owned by other wrappers) are tagged
external; handles allocated by the composition loop itself are tagged fresh,
numbered by an allocation counter. -/
inductive Handle where
  | external (id : Nat)
  | fresh (k : Nat)
deriving DecidableEq, Repr

/-- Managed-level Ruby errors raised by this file (rb_raise). -/
inductive RubyError where
  | typeError (msg : String)
  | runtimeError (msg : String)
deriving DecidableEq, Repr

/-- Log lines emitted via printf by the callback trampoline. -/
inductive LogEvent where
  | invalidCallbackType
  | callbackNotSet
deriving DecidableEq, Repr

/-- Outcome of the rb_funcall dispatch on the bound callable: it either
returns a VALUE or raises a managed-level error. -/
inductive CallOutcome where
  | returns (v : RValue)
  | raises

/-- Models verify_peer_callback_try_wrapper.  The behavior oracle gives the
outcome of rb_funcall on (cb, servername, cert).  A Proc is invoked via call,
a Symbol via its named method; in both branches the return value of rb_funcall
is discarded and INT2NUM(0) is returned.  Any other callback class prints a
log line and returns 1.  The Except error value models a Ruby exception
propagating out of rb_funcall. -/
def verify_peer_callback_try_wrapper (behavior : RValue → RValue → RValue → CallOutcome)
    (cb servername cert : RValue) : Except Unit Int × List LogEvent :=
  if classOfIsProc cb then
    match behavior cb servername cert with
    | CallOutcome.raises => (Except.error (), [])
    | CallOutcome.returns _ => (Except.ok 0, [])
  else if classOfIsSymbol cb then
    match behavior cb servername cert with
    | CallOutcome.raises => (Except.error (), [])
    | CallOutcome.returns _ => (Except.ok 0, [])
  else
    (Except.ok 1, [LogEvent.invalidCallbackType])

/-- Models verify_peer_callback_catch_wrapper: the catch branch always
returns the failure signal INT2NUM(1). -/
def verify_peer_callback_catch_wrapper : Int := 1

/-- Models rb_rescue: the try result when it returns, the catch result when
the try body raised. -/
def rb_rescue (tryRes : Except Unit Int × List LogEvent) (catchRes : Int) :
    Int × List LogEvent :=
  match tryRes with
  | (Except.ok v, logs) => (v, logs)
  | (Except.error _, logs) => (catchRes, logs)

/-- Materialization of a C string into a Ruby VALUE: rb_str_new2 on a
non-NULL pointer, Qnil on NULL. -/
def rbStrOrNil : Option String → RValue
  | some s => RValue.str s
  | none => RValue.nil

/-- Models invoke_rb_verify_callback_with_gvl: builds the passthrough array,
runs the try wrapper under rb_rescue, and returns NULL (modelled none) when
the rescued result is 0, the argument pointer (modelled some) otherwise. -/
def invoke_rb_verify_callback_with_gvl (behavior : RValue → RValue → RValue → CallOutcome)
    (cb : RValue) (servername cert : Option String) : Option Unit × List LogEvent :=
  let result := rb_rescue
    (verify_peer_callback_try_wrapper behavior cb (rbStrOrNil servername) (rbStrOrNil cert))
    verify_peer_callback_catch_wrapper
  (if result.1 = 0 then none else some (), result.2)

/-- Models verify_peer_callback_wrapper, the provider-facing trampoline:
missing userdata logs and returns 1; otherwise the GVL re-entry result NULL
maps to 0 (accept) and non-NULL to 1 (reject).  The model is a total
function, so no managed error ever crosses this boundary. -/
def verify_peer_callback_wrapper (behavior : RValue → RValue → RValue → CallOutcome)
    (servername cert : Option String) (userdata : Option RValue) :
    Int × List LogEvent :=
  match userdata with
  | none => (1, [LogEvent.callbackNotSet])
  | some cb =>
    let r := invoke_rb_verify_callback_with_gvl behavior cb servername cert
    (if r.1 = none then 0 else 1, r.2)

/-- Models grpc_ssl_pem_key_cert_pair. -/
structure grpc_ssl_pem_key_cert_pair where
  private_key : CStr
  cert_chain : CStr
deriving DecidableEq, Repr

/-- Models the verify_peer_options struct passed to the provider: whether the
trampoline was installed as verify_peer_callback, and the userdata VALUE. -/
structure verify_peer_options where
  verify_peer_callback_set : Bool
  verify_peer_callback_userdata : RValue

/-- The argument bundle passed to grpc_ssl_credentials_create. -/
structure SslCreateArgs where
  pem_root_certs : CStr
  key_cert_pair : Option grpc_ssl_pem_key_cert_pair
  verify_options : verify_peer_options

/-- Models the grpc_rb_channel_credentials wrapper struct together with the
hidden instance variables set on the owning Ruby object (the ivars are the
constructor-path ownership set; the mark field is the compose-path ownership
set, both protected from GC by grpc_rb_channel_credentials_mark and by
ordinary ivar marking). -/
structure grpc_rb_channel_credentials where
  mark : RValue
  wrapped : Option Handle
  iv_pem_cert_chain : Option RValue
  iv_pem_private_key : Option RValue
  iv_pem_root_certs : Option RValue
  iv_check_server_identity_cb : Option RValue

/-- Models grpc_rb_channel_credentials_alloc: wrapped = NULL, mark = Qnil,
no hidden ivars set. -/
def grpc_rb_channel_credentials_alloc : grpc_rb_channel_credentials :=
  { mark := RValue.nil
    wrapped := none
    iv_pem_cert_chain := none
    iv_pem_private_key := none
    iv_pem_root_certs := none
    iv_check_server_identity_cb := none }

/-- Models grpc_rb_wrap_channel_credentials: Qnil (none) for a NULL handle,
otherwise a freshly allocated wrapper whose wrapped field is the given handle
and whose mark is the given mark. -/
def grpc_rb_wrap_channel_credentials (c : Option Handle) (mark : RValue) :
    Option grpc_rb_channel_credentials :=
  match c with
  | none => none
  | some h => some { grpc_rb_channel_credentials_alloc with wrapped := some h, mark := mark }

/-- Models grpc_rb_get_wrapped_channel_credentials. -/
def grpc_rb_get_wrapped_channel_credentials (v : grpc_rb_channel_credentials) :
    Option Handle :=
  v.wrapped

/-- Result of a constructor-style call: the state of self after the call (all
mutations applied up to the point of a raise) and the raised error, if any. -/
structure InitResult where
  state : grpc_rb_channel_credentials
  err : Option RubyError

/-- Modelled from the spec: grpc_rb_cannot_init_copy is defined in rb_grpc.c,
which is not part of this repository snapshot; it is bound as initialize_copy
and, per the spec, a copy/duplicate request fails with IllegalReinitialization
(a TypeError) and has no side effect on the owner. -/
def grpc_rb_cannot_init_copy (copy : grpc_rb_channel_credentials) : InitResult :=
  ⟨copy, some (RubyError.typeError "Copy initialization is not supported")⟩

/-- The checkServerIdentity option value extracted from the options hash, nil
when the hash argument was absent. -/
def init_option_value (options_hash : RValue) : RValue :=
  if isNil options_hash then RValue.nil
  else rb_hash_aref options_hash "checkServerIdentity"

/-- The argument bundle grpc_rb_channel_credentials_init passes to
grpc_ssl_credentials_create: NULL roots when the roots argument is nil, else
its RSTRING_PTR; no key/cert pair when both the key and the chain arguments
are nil, else a pair built by applying RSTRING_PTR to both arguments (which
is the undefined value for a nil argument); and the verify-peer options
filled in exactly when the option value is non-nil. -/
def init_ssl_create_args (pem_root_certs pem_private_key pem_cert_chain
    option_value : RValue) : SslCreateArgs :=
  { pem_root_certs :=
      if isNil pem_root_certs then CStr.null else RSTRING_PTR pem_root_certs
    key_cert_pair :=
      if isNil pem_private_key && isNil pem_cert_chain then none
      else some { private_key := RSTRING_PTR pem_private_key
                  cert_chain := RSTRING_PTR pem_cert_chain }
    verify_options :=
      if isNil option_value then
        { verify_peer_callback_set := false, verify_peer_callback_userdata := RValue.nil }
      else
        { verify_peer_callback_set := true, verify_peer_callback_userdata := option_value } }

/-- Models grpc_rb_channel_credentials_init.  The provider oracle stands for
grpc_ssl_credentials_create (some handle on success, none on failure).  An
option value of invalid class raises TypeError before any mutation; otherwise
the callback ivar is recorded when the option is present, the provider is
invoked, provider failure raises RuntimeError, and on success the wrapper
handle is overwritten and the three PEM inputs are recorded as hidden ivars.
There is no already-initialized guard: a previously installed handle is
simply replaced. -/
def grpc_rb_channel_credentials_init (provider : SslCreateArgs → Option Handle)
    (self : grpc_rb_channel_credentials)
    (pem_root_certs pem_private_key pem_cert_chain options_hash : RValue) : InitResult :=
  let option_value := init_option_value options_hash
  if !isNil option_value && !(classOfIsProc option_value || classOfIsSymbol option_value) then
    ⟨self, some (RubyError.typeError "Expected Proc or Symbol callback")⟩
  else
    let self1 := if !isNil option_value then
        { self with iv_check_server_identity_cb := some option_value }
      else self
    match provider (init_ssl_create_args pem_root_certs pem_private_key pem_cert_chain
        option_value) with
    | none => ⟨self1, some (RubyError.runtimeError "could not create a credentials, not sure why")⟩
    | some creds =>
      ⟨{ self1 with
          wrapped := some creds
          iv_pem_cert_chain := some pem_cert_chain
          iv_pem_private_key := some pem_private_key
          iv_pem_root_certs := some pem_root_certs }, none⟩

/-- State of the composition loop when it finishes or raises: the C return
value (the final creds handle and the mark array on success, the raised error
on failure), plus the audit trail of handles the loop allocated and released. -/
structure LoopResult where
  out : Except RubyError (Handle × List RValue)
  allocated : List Handle
  released : List Handle

/-- The for-loop of grpc_rb_channel_credentials_compose.  Per iteration: the
next extras item is pushed onto the mark array, the provider composition
oracle is consulted (true means grpc_composite_channel_credentials_create
returns a new handle, allocated from the counter k; false means it returns
NULL), the previous intermediate handle, if any, is released, and a NULL
result raises.  extras items are pairs of the Ruby object and the id of its
wrapped grpc_call_credentials handle. -/
def composeLoop (ok : Handle → Nat → Bool) : List (RValue × Nat) → Handle → Option Handle →
    List RValue → List Handle → List Handle → Nat → LoopResult
  | [], creds, _prev, mark, alloc, rel, _k => ⟨Except.ok (creds, mark), alloc, rel⟩
  | (v, other) :: rest, creds, prev, mark, alloc, rel, k =>
    if ok creds other then
      composeLoop ok rest (Handle.fresh k) (some (Handle.fresh k)) (mark ++ [v])
        (alloc ++ [Handle.fresh k]) (rel ++ prev.toList) (k + 1)
    else
      ⟨Except.error (RubyError.runtimeError "Failed to compose channel and call credentials"),
        alloc, rel ++ prev.toList⟩

/-- Return value of compose: self itself (identity, the empty-extras path) or
the value of grpc_rb_wrap_channel_credentials on the final handle and mark. -/
inductive ComposeRet where
  | same (v : RValue)
  | wrapped (w : Option grpc_rb_channel_credentials)

/-- Result of a compose call: the returned value or raised error, plus the
audit trail of handles allocated and released by this call. -/
structure ComposeResult where
  ret : Except RubyError ComposeRet
  allocated : List Handle
  released : List Handle

/-- Final step of compose: a loop error propagates as the raised error; loop
success wraps the final handle with the accumulated mark array via
grpc_rb_wrap_channel_credentials. -/
def composeFinish (r : LoopResult) : ComposeResult :=
  match r.out with
  | Except.error e => ⟨Except.error e, r.allocated, r.released⟩
  | Except.ok (creds, mark) =>
    ⟨Except.ok (ComposeRet.wrapped
        (grpc_rb_wrap_channel_credentials (some creds) (RValue.ary mark))),
      r.allocated, r.released⟩

/-- Models grpc_rb_channel_credentials_compose: zero arguments returns self
unchanged; otherwise the mark array is seeded with self, the loop folds the
extras onto the base handle (tagged external: it is owned by self, not
allocated by this call), and the final handle is wrapped. -/
def grpc_rb_channel_credentials_compose (ok : Handle → Nat → Bool) (self : RValue)
    (base : Nat) (extras : List (RValue × Nat)) : ComposeResult :=
  match extras with
  | [] => ⟨Except.ok (ComposeRet.same self), [], []⟩
  | _ :: _ =>
    composeFinish (composeLoop ok extras (Handle.external base) none [self] [] [] 0)

/-- Enum grpc_ssl_roots_override_result. -/
inductive grpc_ssl_roots_override_result where
  | ok
  | fail
deriving DecidableEq, Repr

/-- The process-wide static buffer pem_root_certs starts out NULL. -/
def initial_pem_root_certs : Option String := none

/-- Models get_ssl_roots_override: stores the current buffer through the out
parameter and reports FAIL when the buffer is NULL, OK otherwise. -/
def get_ssl_roots_override (pem_root_certs : Option String) :
    grpc_ssl_roots_override_result × Option String :=
  match pem_root_certs with
  | none => (grpc_ssl_roots_override_result.fail, none)
  | some s => (grpc_ssl_roots_override_result.ok, some s)

/-- Models grpc_rb_set_default_roots_pem: allocates a fresh buffer, copies
the argument into it, and replaces the process-wide pointer with it
(whatever was stored before is discarded). -/
def grpc_rb_set_default_roots_pem (pem_root_certs : Option String) (roots : String) :
    Option String :=
  some roots

/-- The buffer after a sequence of set_default_roots_pem calls starting from
the initial NULL state. -/
def runDefaultRootsSets (sets : List String) : Option String :=
  sets.foldl grpc_rb_set_default_roots_pem initial_pem_root_certs

/-- A callable whose invocation completes and returns false (a failure-signal
value under Ruby truthiness). -/
def behaviorReturnsFalse : RValue → RValue → RValue → CallOutcome :=
  fun _ _ _ => CallOutcome.returns (RValue.boolval false)

/-- A callable whose invocation completes and returns true (a success
indicator). -/
def behaviorReturnsTrue : RValue → RValue → RValue → CallOutcome :=
  fun _ _ _ => CallOutcome.returns (RValue.boolval true)

/-- A callable whose invocation raises a managed-level error. -/
def behaviorRaises : RValue → RValue → RValue → CallOutcome :=
  fun _ _ _ => CallOutcome.raises

/-- A provider oracle for which grpc_ssl_credentials_create always succeeds. -/
def provAccepting : SslCreateArgs → Option Handle :=
  fun _ => some (Handle.fresh 0)

/-- An owner that has already been initialized: its wrapper holds a live
handle. -/
def initializedOwner : grpc_rb_channel_credentials :=
  { grpc_rb_channel_credentials_alloc with wrapped := some (Handle.external 5) }

/-- A composition oracle for which every composition step succeeds. -/
def okAll : Handle → Nat → Bool := fun _ _ => true

/-- A composition oracle for which every composition step fails. -/
def okNone : Handle → Nat → Bool := fun _ _ => false

/-- An options hash carrying a Proc under the checkServerIdentity key. -/
def optsEx : RValue := RValue.hash [("checkServerIdentity", RValue.rproc 7)]

/-- The wrapper produced by composing the owner of external handle 5 with one
call credential under the always-succeeding oracle. -/
def wEx : grpc_rb_channel_credentials :=
  { grpc_rb_channel_credentials_alloc with
      wrapped := some (Handle.fresh 0)
      mark := RValue.ary [RValue.obj 1, RValue.obj 2] }

/-- Loop invariant of the composition fold: whenever the handles allocated so
far are exactly the handles released so far followed by the pending
intermediate, and all of them are engine-allocated (fresh), then on a failing
run the final released list equals the final allocated list and still holds
only engine-allocated handles. -/
theorem composeLoop_error_released (ok : Handle → Nat → Bool) (extras : List (RValue × Nat)) :
    ∀ creds prev mark alloc rel k e,
      alloc = rel ++ prev.toList →
      (∀ h ∈ alloc, ∃ j, h = Handle.fresh j) →
      (composeLoop ok extras creds prev mark alloc rel k).out = Except.error e →
      (composeLoop ok extras creds prev mark alloc rel k).released =
        (composeLoop ok extras creds prev mark alloc rel k).allocated ∧
      ∀ h ∈ (composeLoop ok extras creds prev mark alloc rel k).released,
        ∃ j, h = Handle.fresh j := by
  induction extras with
  | nil =>
    intro creds prev mark alloc rel k e h1 h2 herr
    simp [composeLoop] at herr
  | cons p rest ih =>
    obtain ⟨v, other⟩ := p
    intro creds prev mark alloc rel k e h1 h2 herr
    by_cases hok : ok creds other = true
    · simp only [composeLoop, hok, if_true] at herr ⊢
      refine ih (Handle.fresh k) (some (Handle.fresh k)) (mark ++ [v])
        (alloc ++ [Handle.fresh k]) (rel ++ prev.toList) (k + 1) e ?_ ?_ herr
      · simp [h1]
      · intro h hm
        rcases List.mem_append.1 hm with hm | hm
        · exact h2 h hm
        · simp at hm
          exact ⟨k, hm⟩
    · simp only [composeLoop, hok, if_false] at herr ⊢
      exact ⟨h1.symm, fun h hm => h2 h (by rw [h1]; exact hm)⟩

/-- Loop invariant of the composition fold: on a successful run the returned
mark array is the initial mark array followed by the Ruby objects of every
consumed extras item, in order. -/
theorem composeLoop_ok_mark (ok : Handle → Nat → Bool) (extras : List (RValue × Nat)) :
    ∀ creds prev mark alloc rel k hh m,
      (composeLoop ok extras creds prev mark alloc rel k).out = Except.ok (hh, m) →
      m = mark ++ extras.map Prod.fst := by
  induction extras with
  | nil =>
    intro creds prev mark alloc rel k hh m hout
    simp only [composeLoop, Except.ok.injEq, Prod.mk.injEq] at hout
    simp [hout.2.symm]
  | cons p rest ih =>
    obtain ⟨v, other⟩ := p
    intro creds prev mark alloc rel k hh m hout
    by_cases hok : ok creds other = true
    · simp only [composeLoop, hok, if_true] at hout
      have := ih (Handle.fresh k) (some (Handle.fresh k)) (mark ++ [v])
        (alloc ++ [Handle.fresh k]) (rel ++ prev.toList) (k + 1) hh m hout
      simp [this]
    · simp [composeLoop, hok] at hout

/-- Claim C1 counterexample: the claim asserts that a 0/false/failure-signal
return of the callable maps to reject (1); in the code the return value of
rb_funcall is discarded, so a Proc invoked with (servername example.com,
cert pem) that completes returning false (a falsy, failure-signal value)
still yields trampoline output 0 (accept), not 1. -/
theorem C1_falsy_return_still_accepted :
    rubyTruthy (RValue.boolval false) = false ∧
    ¬ ((verify_peer_callback_wrapper behaviorReturnsFalse (some "example.com") (some "<pem>")
        (some (RValue.rproc 0))).1 = 1) ∧
    (verify_peer_callback_wrapper behaviorReturnsFalse (some "example.com") (some "<pem>")
        (some (RValue.rproc 0))).1 = 0 := by
  refine ⟨rfl, by decide, rfl⟩

/-- Claim C1 (amended): for every verification-callback invocation whose
bound callable is a Proc or a Symbol and completes without raising, the
trampoline returns accept (0) to the provider regardless of the returned
value, which is discarded; in particular a callback invoked with
(servername example.com, cert pem) that returns success yields output 0. -/
theorem C1_completed_call_accepted (behavior : RValue → RValue → RValue → CallOutcome)
    (cb : RValue) (servername cert : Option String) (v : RValue)
    (hcb : classOfIsProc cb = true ∨ classOfIsSymbol cb = true)
    (hret : behavior cb (rbStrOrNil servername) (rbStrOrNil cert) = CallOutcome.returns v) :
    (verify_peer_callback_wrapper behavior servername cert (some cb)).1 = 0 := by
  cases cb <;>
    simp_all [verify_peer_callback_wrapper, invoke_rb_verify_callback_with_gvl,
      verify_peer_callback_try_wrapper, rb_rescue, verify_peer_callback_catch_wrapper,
      classOfIsProc, classOfIsSymbol]

/-- Claim C1 witness: concrete instance of the amended claim, with a Proc
callback returning a success indicator on the example.com invocation. -/
theorem C1_completed_call_accepted_witness :
    (verify_peer_callback_wrapper behaviorReturnsTrue (some "example.com") (some "<pem>")
        (some (RValue.rproc 0))).1 = 0 :=
  C1_completed_call_accepted behaviorReturnsTrue (RValue.rproc 0) (some "example.com")
    (some "<pem>") (RValue.boolval true) (Or.inl rfl) rfl

/-- Claim C2: for every verification-callback invocation whose bound callable
raises a managed-level error, the trampoline returns reject (1) to the
provider; the rb_rescue model consumes the error, and the trampoline is a
total function into plain integers, so the error never crosses the native
boundary. -/
theorem C2_raised_error_rejected (behavior : RValue → RValue → RValue → CallOutcome)
    (cb : RValue) (servername cert : Option String)
    (hraise : behavior cb (rbStrOrNil servername) (rbStrOrNil cert) = CallOutcome.raises) :
    (verify_peer_callback_wrapper behavior servername cert (some cb)).1 = 1 := by
  cases cb <;>
    simp_all [verify_peer_callback_wrapper, invoke_rb_verify_callback_with_gvl,
      verify_peer_callback_try_wrapper, rb_rescue, verify_peer_callback_catch_wrapper,
      classOfIsProc, classOfIsSymbol]

/-- Claim C2 witness: concrete instance with a Proc callback that raises. -/
theorem C2_raised_error_rejected_witness :
    (verify_peer_callback_wrapper behaviorRaises (some "example.com") (some "<pem>")
        (some (RValue.rproc 0))).1 = 1 :=
  C2_raised_error_rejected behaviorRaises (RValue.rproc 0) (some "example.com")
    (some "<pem>") rfl

/-- Claim C3 counterexample: the claim asserts that re-invoking the
constructor on an already-initialized owner fails with
IllegalReinitialization and leaves the handle untouched; in the code the
constructor has no initialized-guard: on an owner already holding external
handle 5 it completes without error and replaces the handle with the newly
created one. -/
theorem C3_reinit_not_rejected :
    initializedOwner.wrapped = some (Handle.external 5) ∧
    (grpc_rb_channel_credentials_init provAccepting initializedOwner
        RValue.nil RValue.nil RValue.nil RValue.nil).err = none ∧
    (grpc_rb_channel_credentials_init provAccepting initializedOwner
        RValue.nil RValue.nil RValue.nil RValue.nil).state.wrapped =
      some (Handle.fresh 0) :=
  ⟨rfl, rfl, rfl⟩

/-- Claim C3 (amended): a copy/duplicate request fails with
IllegalReinitialization and has no side effect on the owner; re-invoking the
constructor, however, is not rejected: whether the owner was already
initialized has no effect on whether the call errs, and a successful call
overwrites the wrapper handle with the provider-created one. -/
theorem C3_copy_rejected_reinit_overwrites :
    (∀ s, grpc_rb_cannot_init_copy s =
      ⟨s, some (RubyError.typeError "Copy initialization is not supported")⟩) ∧
    (∀ provider self other r k c o,
      (grpc_rb_channel_credentials_init provider self r k c o).err =
      (grpc_rb_channel_credentials_init provider other r k c o).err) ∧
    (∀ provider self r k c o,
      (grpc_rb_channel_credentials_init provider self r k c o).err = none →
      (grpc_rb_channel_credentials_init provider self r k c o).state.wrapped =
        provider (init_ssl_create_args r k c (init_option_value o))) := by
  refine ⟨fun s => rfl, ?_, ?_⟩
  · intro provider self other r k c o
    by_cases h1 : isNil (init_option_value o) = true
    · cases hp : provider (init_ssl_create_args r k c (init_option_value o)) <;>
        simp [grpc_rb_channel_credentials_init, h1, hp]
    · by_cases h2 : classOfIsProc (init_option_value o) = true
      · cases hp : provider (init_ssl_create_args r k c (init_option_value o)) <;>
          simp [grpc_rb_channel_credentials_init, h1, h2, hp]
      · by_cases h3 : classOfIsSymbol (init_option_value o) = true
        · cases hp : provider (init_ssl_create_args r k c (init_option_value o)) <;>
            simp [grpc_rb_channel_credentials_init, h1, h2, h3, hp]
        · simp [grpc_rb_channel_credentials_init, h1, h2, h3]
  · intro provider self r k c o herr
    by_cases h1 : isNil (init_option_value o) = true
    · cases hp : provider (init_ssl_create_args r k c (init_option_value o)) with
      | none => simp [grpc_rb_channel_credentials_init, h1, hp] at herr
      | some creds => simp [grpc_rb_channel_credentials_init, h1, hp]
    · by_cases h2 : classOfIsProc (init_option_value o) = true
      · cases hp : provider (init_ssl_create_args r k c (init_option_value o)) with
        | none => simp [grpc_rb_channel_credentials_init, h1, h2, hp] at herr
        | some creds => simp [grpc_rb_channel_credentials_init, h1, h2, hp]
      · by_cases h3 : classOfIsSymbol (init_option_value o) = true
        · cases hp : provider (init_ssl_create_args r k c (init_option_value o)) with
          | none => simp [grpc_rb_channel_credentials_init, h1, h2, h3, hp] at herr
          | some creds => simp [grpc_rb_channel_credentials_init, h1, h2, h3, hp]
        · simp [grpc_rb_channel_credentials_init, h1, h2, h3] at herr

/-- Claim C3 witness: concrete instance of the overwrite clause on an
already-initialized owner. -/
theorem C3_copy_rejected_reinit_overwrites_witness :
    (grpc_rb_channel_credentials_init provAccepting initializedOwner
        (RValue.str "R") RValue.nil RValue.nil RValue.nil).state.wrapped =
      provAccepting (init_ssl_create_args (RValue.str "R") RValue.nil RValue.nil
        (init_option_value RValue.nil)) :=
  C3_copy_rejected_reinit_overwrites.2.2 provAccepting initializedOwner
    (RValue.str "R") RValue.nil RValue.nil RValue.nil rfl

/-- Claim C4: when a composition step fails, the raised error leaves a state
in which every handle the engine allocated during the call has already been
released, only engine-allocated (fresh) handles were ever released, and in
particular the base handle (external, owned by its original owner) was never
released; call-credential handles are never passed to the channel-credential
release at all. -/
theorem C4_compose_failure_cleanup (ok : Handle → Nat → Bool) (self : RValue) (base : Nat)
    (extras : List (RValue × Nat)) (r : ComposeResult) (e : RubyError)
    (hr : grpc_rb_channel_credentials_compose ok self base extras = r)
    (herr : r.ret = Except.error e) :
    r.released = r.allocated ∧ (∀ h ∈ r.released, ∃ j, h = Handle.fresh j) ∧
    Handle.external base ∉ r.released := by
  subst hr
  cases extras with
  | nil => simp [grpc_rb_channel_credentials_compose] at herr
  | cons p rest =>
    simp only [grpc_rb_channel_credentials_compose] at herr ⊢
    cases hout : (composeLoop ok (p :: rest) (Handle.external base) none [self] [] [] 0).out with
    | error e2 =>
      have hmain := composeLoop_error_released ok (p :: rest) (Handle.external base) none [self]
        [] [] 0 e2 (by simp) (by simp) hout
      simp only [composeFinish, hout] at herr ⊢
      refine ⟨hmain.1, hmain.2, fun hmem => ?_⟩
      rcases hmain.2 _ hmem with ⟨j, hj⟩
      cases hj
    | ok pr =>
      simp [composeFinish, hout] at herr

/-- Claim C4 witness: concrete failing composition (the oracle rejects the
single step), for which nothing was allocated and nothing was released. -/
theorem C4_compose_failure_cleanup_witness :
    (grpc_rb_channel_credentials_compose okNone (RValue.obj 1) 5 [(RValue.obj 2, 9)]).released =
      (grpc_rb_channel_credentials_compose okNone (RValue.obj 1) 5 [(RValue.obj 2, 9)]).allocated ∧
    (∀ h ∈ (grpc_rb_channel_credentials_compose okNone (RValue.obj 1) 5
        [(RValue.obj 2, 9)]).released, ∃ j, h = Handle.fresh j) ∧
    Handle.external 5 ∉ (grpc_rb_channel_credentials_compose okNone (RValue.obj 1) 5
        [(RValue.obj 2, 9)]).released :=
  C4_compose_failure_cleanup okNone (RValue.obj 1) 5 [(RValue.obj 2, 9)] _
    (RubyError.runtimeError "Failed to compose channel and call credentials") rfl rfl

/-- Claim C5: composing with an empty sequence of call credentials returns
self itself (identity), so the result and its handle are identity-equal to
the base and its handle, and the call allocates no new handle. -/
theorem C5_compose_empty_identity (ok : Handle → Nat → Bool) (self : RValue) (base : Nat) :
    grpc_rb_channel_credentials_compose ok self base [] =
      ⟨Except.ok (ComposeRet.same self), [], []⟩ :=
  rfl

/-- Claim C6: a constructor-produced owner records the three PEM inputs (and,
when given, the verification closure) as hidden ivars of its ownership set,
and a compose-produced owner carries a mark array consisting of the base
reference followed by every call credential consumed from extras. -/
theorem C6_ownership_marks :
    (∀ provider self r k c o,
      (grpc_rb_channel_credentials_init provider self r k c o).err = none →
      (grpc_rb_channel_credentials_init provider self r k c o).state.iv_pem_root_certs =
          some r ∧
      (grpc_rb_channel_credentials_init provider self r k c o).state.iv_pem_private_key =
          some k ∧
      (grpc_rb_channel_credentials_init provider self r k c o).state.iv_pem_cert_chain =
          some c ∧
      (isNil (init_option_value o) = false →
        (grpc_rb_channel_credentials_init provider self r k c o).state.iv_check_server_identity_cb =
          some (init_option_value o))) ∧
    (∀ ok self base e extras w,
      (grpc_rb_channel_credentials_compose ok self base (e :: extras)).ret =
        Except.ok (ComposeRet.wrapped (some w)) →
      w.mark = RValue.ary (self :: (e :: extras).map Prod.fst)) := by
  constructor
  · intro provider self r k c o herr
    by_cases h1 : isNil (init_option_value o) = true
    · cases hp : provider (init_ssl_create_args r k c (init_option_value o)) with
      | none => simp [grpc_rb_channel_credentials_init, h1, hp] at herr
      | some creds => simp [grpc_rb_channel_credentials_init, h1, hp]
    · by_cases h2 : classOfIsProc (init_option_value o) = true
      · cases hp : provider (init_ssl_create_args r k c (init_option_value o)) with
        | none => simp [grpc_rb_channel_credentials_init, h1, h2, hp] at herr
        | some creds => simp [grpc_rb_channel_credentials_init, h1, h2, hp]
      · by_cases h3 : classOfIsSymbol (init_option_value o) = true
        · cases hp : provider (init_ssl_create_args r k c (init_option_value o)) with
          | none => simp [grpc_rb_channel_credentials_init, h1, h2, h3, hp] at herr
          | some creds => simp [grpc_rb_channel_credentials_init, h1, h2, h3, hp]
        · simp [grpc_rb_channel_credentials_init, h1, h2, h3] at herr
  · intro ok self base e extras w hret
    simp only [grpc_rb_channel_credentials_compose] at hret
    cases hout : (composeLoop ok (e :: extras) (Handle.external base) none [self] [] [] 0).out with
    | error e2 => simp [composeFinish, hout] at hret
    | ok pr =>
      obtain ⟨hh, m⟩ := pr
      have hm := composeLoop_ok_mark ok (e :: extras) (Handle.external base) none [self]
        [] [] 0 hh m hout
      simp only [composeFinish, hout, grpc_rb_wrap_channel_credentials,
        Except.ok.injEq] at hret
      cases hret
      simp [hm]

/-- Claim C6 witness: concrete constructor call recording PEM strings R, K, C
and a Proc callback, and concrete composition whose mark array is the base
object followed by the single consumed call credential. -/
theorem C6_ownership_marks_witness :
    ((grpc_rb_channel_credentials_init provAccepting grpc_rb_channel_credentials_alloc
        (RValue.str "R") (RValue.str "K") (RValue.str "C") optsEx).state.iv_pem_root_certs =
      some (RValue.str "R") ∧
    (grpc_rb_channel_credentials_init provAccepting grpc_rb_channel_credentials_alloc
        (RValue.str "R") (RValue.str "K") (RValue.str "C") optsEx).state.iv_pem_private_key =
      some (RValue.str "K") ∧
    (grpc_rb_channel_credentials_init provAccepting grpc_rb_channel_credentials_alloc
        (RValue.str "R") (RValue.str "K") (RValue.str "C") optsEx).state.iv_pem_cert_chain =
      some (RValue.str "C") ∧
    (grpc_rb_channel_credentials_init provAccepting grpc_rb_channel_credentials_alloc
        (RValue.str "R") (RValue.str "K") (RValue.str "C") optsEx).state.iv_check_server_identity_cb =
      some (init_option_value optsEx)) ∧
    wEx.mark = RValue.ary (RValue.obj 1 :: ([(RValue.obj 2, 9)].map Prod.fst)) := by
  have h := C6_ownership_marks.1 provAccepting grpc_rb_channel_credentials_alloc
    (RValue.str "R") (RValue.str "K") (RValue.str "C") optsEx rfl
  exact ⟨⟨h.1, h.2.1, h.2.2.1, h.2.2.2 rfl⟩,
    C6_ownership_marks.2 okAll (RValue.obj 1) 5 (RValue.obj 2, 9) [] wEx rfl⟩

/-- Claim C7: the root-override hook reports failure (and a NULL buffer)
before any set_default_roots_pem call; every set call stores a copy of its
argument, replacing the previous value; and after any sequence of set calls
ending in a given value, the hook reports success with that value (last
write wins). -/
theorem C7_root_override_store :
    get_ssl_roots_override initial_pem_root_certs =
      (grpc_ssl_roots_override_result.fail, none) ∧
    (∀ prev s, grpc_rb_set_default_roots_pem prev s = some s) ∧
    (∀ sets l, get_ssl_roots_override (runDefaultRootsSets (sets ++ [l])) =
      (grpc_ssl_roots_override_result.ok, some l)) := by
  refine ⟨rfl, fun _ _ => rfl, fun sets l => ?_⟩
  simp [runDefaultRootsSets, List.foldl_append, grpc_rb_set_default_roots_pem,
    get_ssl_roots_override]

/-- Claim C8: constructing with only the private key present (cert chain
absent) is not rejected, and the native cert_chain field passed to the
provider is the undefined value produced by RSTRING_PTR on Qnil, not a value
derived from any input: the code violates the claimed safety requirement. -/
theorem C8_one_sided_pair_not_rejected :
    (init_ssl_create_args RValue.nil (RValue.str "KEY") RValue.nil RValue.nil).key_cert_pair =
      some { private_key := CStr.str "KEY", cert_chain := CStr.undef } ∧
    (grpc_rb_channel_credentials_init provAccepting grpc_rb_channel_credentials_alloc
        RValue.nil (RValue.str "KEY") RValue.nil RValue.nil).err = none ∧
    (grpc_rb_channel_credentials_init provAccepting grpc_rb_channel_credentials_alloc
        RValue.nil (RValue.str "KEY") RValue.nil RValue.nil).state.wrapped =
      some (Handle.fresh 0) :=
  ⟨rfl, rfl, rfl⟩

/-- Claim C9: when the native callback is invoked with absent (NULL)
userdata, the trampoline returns reject (1) and logs, and the result is the
same for every possible callable behavior, since the managed runtime is
never entered and no callable is invoked. -/
theorem C9_missing_userdata_rejected (behavior : RValue → RValue → RValue → CallOutcome)
    (servername cert : Option String) :
    verify_peer_callback_wrapper behavior servername cert none =
      (1, [LogEvent.callbackNotSet]) :=
  rfl

/-- Claim C10: wrapping a NULL channel-credentials handle returns the nil
sentinel, and wrapping any non-NULL handle with any mark returns a fresh
owner whose wrapped handle is identity-equal to the given handle and whose
mark is the given mark. -/
theorem C10_wrap_null_and_nonnull :
    (∀ m, grpc_rb_wrap_channel_credentials none m = none) ∧
    (∀ h m, ∃ w, grpc_rb_wrap_channel_credentials (some h) m = some w ∧
      w.wrapped = some h ∧ w.mark = m) :=
  ⟨fun _ => rfl, fun h m => ⟨_, rfl, rfl, rfl⟩⟩

end GrpcRb
